import Mathlib

/-!
Verification of the cloud-security-posture-dashboard repository.

This file shallowly embeds the logic of `src/remediation/aws/remediate.py`
and `src/scripts/scanning/aggregate_findings.py` and proves the stated
properties about it.

Conventions of the embedding:
  - Python dict fields read through `dict.get(key)` are modelled as `Option`
    fields (`none` = key absent); `dict.get(key, default)` becomes
    `Option.getD`.
  - The effectful boundary (`subprocess.run`) is modelled by passing an
    executor function `List String → CmdResult` into each fixer; the fixer
    records every external command it issues in the `commands` field of its
    outcome, so "no external command is executed" is an observable fact.
  - Python string builtins (`upper`, `lower`, `strip`, `replace`, `split`)
    are re-implemented over character lists with Python's semantics
    (restricted to ASCII case mapping, which covers every string the
    program compares against); the core Lean `String` versions are avoided
    because they do not reduce inside the kernel.
-/

/-! ## Python-style string helpers -/

/-- ASCII uppercase of one character (Python `str.upper` on ASCII input). -/
def asciiUpcase (c : Char) : Char :=
  if 'a' ≤ c ∧ c ≤ 'z' then Char.ofNat (c.toNat - 32) else c

/-- ASCII lowercase of one character (Python `str.lower` on ASCII input). -/
def asciiDowncase (c : Char) : Char :=
  if 'A' ≤ c ∧ c ≤ 'Z' then Char.ofNat (c.toNat + 32) else c

/-- Python `s.upper()` (ASCII fragment). -/
def pyUpper (s : String) : String := ⟨s.data.map asciiUpcase⟩

/-- Python `s.lower()` (ASCII fragment). -/
def pyLower (s : String) : String := ⟨s.data.map asciiDowncase⟩

/-- The characters Python `str.strip()` removes by default (ASCII whitespace). -/
def isPySpace (c : Char) : Bool :=
  c = ' ' ∨ c = '\t' ∨ c = '\n' ∨ c = '\r' ∨ c = '\x0b' ∨ c = '\x0c'

/-- Python `s.strip()`. -/
def pyStrip (s : String) : String :=
  ⟨((s.data.dropWhile isPySpace).reverse.dropWhile isPySpace).reverse⟩

/-- Does `pat` occur starting at the head of `s`? Helper for `listHasSub`. -/
def listHasSub (pat : List Char) : List Char → Bool
  | [] => pat.isPrefixOf ([] : List Char)
  | c :: rest => pat.isPrefixOf (c :: rest) || listHasSub pat rest

/-- Python `pat in s` (substring containment). -/
def strContains (s pat : String) : Bool := listHasSub pat.data s.data

/-- Python `s.split(sep)` for a one-character separator: splits on every
occurrence, keeping empty pieces. -/
def splitOnChar (sep : Char) : List Char → List String
  | [] => [""]
  | c :: rest =>
    if c = sep then "" :: splitOnChar sep rest
    else
      match splitOnChar sep rest with
      | [] => [String.mk [c]]
      | piece :: pieces => String.mk (c :: piece.data) :: pieces

/-- Python truthiness of an optional string: `None` and `""` are falsy. -/
def optFalsy : Option String → Bool
  | none => true
  | some s => s == ""

/-- Python `str(x)` on an optional string (`None` prints as `"None"`). -/
def pyStrOpt : Option String → String
  | none => "None"
  | some s => s

/-! ## Embedding of `src/remediation/aws/remediate.py`

A remediation-input finding is a JSON object loaded from the aggregated
findings file; the engine only ever reads the five fields below, always
through `dict.get`, so they are modelled as `Option String`. -/

/-- A finding as consumed by the remediation engine. -/
structure RFinding where
  finding_id : Option String
  resource : Option String
  severity : Option String
  account_id : Option String
  region : Option String
deriving DecidableEq, Repr

/-- Outcome of one external command (`subprocess.run`): exit status and
captured standard error. -/
structure CmdResult where
  returncode : Int
  stderr : String
deriving DecidableEq, Repr

/-- What one fixer call produced: the external commands it issued (in
order), and the `(success, message)` pair it returned. -/
structure FixOutcome where
  commands : List (List String)
  success : Bool
  message : String
deriving DecidableEq, Repr

/-- The type of a fixer function: finding, `dry_run` flag, and the executor
standing in for `subprocess.run`. -/
def Fixer := RFinding → Bool → (List String → CmdResult) → FixOutcome

/-- The `json.dumps` rendering of the encryption configuration used by
`fix_s3_default_encryption`. -/
def encryptionConfigJson : String :=
  "\x7b\"Rules\": [\x7b\"ApplyServerSideEncryptionByDefault\": \x7b\"SSEAlgorithm\": \"AES256\"\x7d\x7d]\x7d"

/-- Embedding of `fix_s3_default_encryption` from `remediate.py`. -/
def fix_s3_default_encryption : Fixer := fun finding dry_run exec =>
  let bucket_name := finding.resource
  if optFalsy bucket_name || bucket_name == finding.account_id then
    ⟨[], false, "Cannot determine bucket name from finding"⟩
  else
    let b := bucket_name.getD ""
    let command := ["aws", "s3api", "put-bucket-encryption", "--bucket", b,
      "--server-side-encryption-configuration", encryptionConfigJson]
    if dry_run then
      ⟨[], true, "[DRY RUN] Would enable AES-256 encryption on bucket: " ++ b⟩
    else
      let result := exec command
      if result.returncode == 0 then
        ⟨[command], true, "Successfully enabled encryption on bucket: " ++ b⟩
      else
        ⟨[command], false,
          "Failed to enable encryption on " ++ b ++ ": " ++ result.stderr⟩

/-- Embedding of `fix_s3_public_access_block` from `remediate.py`. -/
def fix_s3_public_access_block : Fixer := fun finding dry_run exec =>
  let bucket_name := finding.resource
  if optFalsy bucket_name || bucket_name == finding.account_id then
    ⟨[], false, "Cannot determine bucket name from finding"⟩
  else
    let b := bucket_name.getD ""
    let command := ["aws", "s3api", "put-public-access-block", "--bucket", b,
      "--public-access-block-configuration",
      "BlockPublicAcls=true,IgnorePublicAcls=true,BlockPublicPolicy=true,RestrictPublicBuckets=true"]
    if dry_run then
      ⟨[], true, "[DRY RUN] Would block public access on bucket: " ++ b⟩
    else
      let result := exec command
      if result.returncode == 0 then
        ⟨[command], true, "Successfully blocked public access on bucket: " ++ b⟩
      else
        ⟨[command], false,
          "Failed to block public access on " ++ b ++ ": " ++ result.stderr⟩

/-- Embedding of `fix_s3_versioning` from `remediate.py`. -/
def fix_s3_versioning : Fixer := fun finding dry_run exec =>
  let bucket_name := finding.resource
  if optFalsy bucket_name || bucket_name == finding.account_id then
    ⟨[], false, "Cannot determine bucket name from finding"⟩
  else
    let b := bucket_name.getD ""
    let command := ["aws", "s3api", "put-bucket-versioning", "--bucket", b,
      "--versioning-configuration", "Status=Enabled"]
    if dry_run then
      ⟨[], true, "[DRY RUN] Would enable versioning on bucket: " ++ b⟩
    else
      let result := exec command
      if result.returncode == 0 then
        ⟨[command], true, "Successfully enabled versioning on bucket: " ++ b⟩
      else
        ⟨[command], false,
          "Failed to enable versioning on " ++ b ++ ": " ++ result.stderr⟩

/-- Embedding of `fix_s3_logging` from `remediate.py`: always declines with a `[MANUAL]`
message and never issues a command. -/
def fix_s3_logging : Fixer := fun finding _dry_run _exec =>
  let b := pyStrOpt finding.resource
  ⟨[], false,
    "[MANUAL] S3 logging for " ++ b ++ " requires a target bucket. " ++
    "Run: aws s3api put-bucket-logging --bucket " ++ b ++ " " ++
    "--bucket-logging-status '\x7b\"LoggingEnabled\":\x7b\"TargetBucket\":\"YOUR-LOG-BUCKET\",\"TargetPrefix\":\"" ++
    b ++ "/\"\x7d\x7d'"⟩

/-- Embedding of `fix_iam_access_analyzer` from `remediate.py`. -/
def fix_iam_access_analyzer : Fixer := fun finding dry_run exec =>
  let region := finding.region.getD "us-east-1"
  let analyzer_name := "security-analyzer-" ++ region
  let command := ["aws", "accessanalyzer", "create-analyzer",
    "--analyzer-name", analyzer_name, "--type", "ACCOUNT", "--region", region]
  if dry_run then
    ⟨[], true, "[DRY RUN] Would create IAM Access Analyzer in region: " ++ region⟩
  else
    let result := exec command
    if result.returncode == 0 then
      ⟨[command], true, "Successfully created IAM Access Analyzer in region: " ++ region⟩
    else if strContains result.stderr "ConflictException" then
      ⟨[command], true, "IAM Access Analyzer already exists in region: " ++ region⟩
    else
      ⟨[command], false,
        "Failed to create IAM Access Analyzer in " ++ region ++ ": " ++ result.stderr⟩

/-- Embedding of `fix_account_level_public_access_block` from `remediate.py`. -/
def fix_account_level_public_access_block : Fixer := fun finding dry_run exec =>
  let account_id := finding.account_id
  if optFalsy account_id then
    ⟨[], false, "Cannot determine account ID from finding"⟩
  else
    let a := account_id.getD ""
    let command := ["aws", "s3control", "put-public-access-block",
      "--account-id", a, "--public-access-block-configuration",
      "BlockPublicAcls=true,IgnorePublicAcls=true,BlockPublicPolicy=true,RestrictPublicBuckets=true"]
    if dry_run then
      ⟨[], true,
        "[DRY RUN] Would enable account-level S3 public access block for account: " ++ a⟩
    else
      let result := exec command
      if result.returncode == 0 then
        ⟨[command], true, "Successfully enabled account-level S3 public access block"⟩
      else
        ⟨[command], false,
          "Failed to enable account-level public access block: " ++ result.stderr⟩

/-- The `REMEDIATION_MAP` table from `remediate.py`, in source order. -/
def REMEDIATION_MAP : List (String × Fixer) :=
  [("s3_bucket_default_encryption", fix_s3_default_encryption),
   ("s3_bucket_server_side_encryption_enabled", fix_s3_default_encryption),
   ("s3_bucket_public_access", fix_s3_public_access_block),
   ("s3_bucket_level_public_access_block", fix_s3_public_access_block),
   ("s3_bucket_policy_public_write_access", fix_s3_public_access_block),
   ("s3_bucket_acl_prohibited", fix_s3_public_access_block),
   ("s3_bucket_no_mfa_delete", fix_s3_versioning),
   ("s3_bucket_versioning_enabled", fix_s3_versioning),
   ("s3_bucket_logging_enabled", fix_s3_logging),
   ("accessanalyzer_enabled", fix_iam_access_analyzer),
   ("s3_account_level_public_access_blocks", fix_account_level_public_access_block)]

/-- One entry of a result bucket (`finding_id`, `resource`, and the message
or skip reason). -/
structure ResultEntry where
  finding_id : String
  resource : String
  message : String
deriving DecidableEq, Repr

/-- The engine's `self.results` buckets. -/
structure Results where
  fixed : List ResultEntry
  failed : List ResultEntry
  skipped : List ResultEntry
  manual : List ResultEntry
deriving DecidableEq, Repr

/-- The engine's initial result buckets. -/
def emptyResults : Results := ⟨[], [], [], []⟩

/-- Embedding of `RemediationEngine.remediate_finding`: classify one finding into one of
the four buckets. -/
def remediate_finding (dry_run : Bool) (exec : List String → CmdResult)
    (results : Results) (finding : RFinding) : Results :=
  let finding_id := finding.finding_id.getD "unknown"
  let resource := finding.resource.getD "unknown"
  match REMEDIATION_MAP.lookup finding_id with
  | none =>
    { results with
      skipped := results.skipped ++
        [⟨finding_id, resource, "No automated remediation available"⟩] }
  | some remediation_func =>
    let out := remediation_func finding dry_run exec
    if strContains out.message "[MANUAL]" then
      { results with
        manual := results.manual ++ [⟨finding_id, resource, out.message⟩] }
    else if out.success then
      { results with
        fixed := results.fixed ++ [⟨finding_id, resource, out.message⟩] }
    else
      { results with
        failed := results.failed ++ [⟨finding_id, resource, out.message⟩] }

/-- The external commands issued while remediating one finding (none when
no fixer is registered for it). -/
def remediate_commands (dry_run : Bool) (exec : List String → CmdResult)
    (finding : RFinding) : List (List String) :=
  match REMEDIATION_MAP.lookup (finding.finding_id.getD "unknown") with
  | none => []
  | some remediation_func => (remediation_func finding dry_run exec).commands

/-- Embedding of `RemediationEngine.filter_findings`: three optional filters applied in
sequence. An absent or empty filter string is skipped (Python truthiness). -/
def filter_findings (findings : List RFinding)
    (finding_type resource severity : Option String) : List RFinding :=
  let filtered := findings
  let filtered :=
    if optFalsy finding_type then filtered
    else filtered.filter (fun f => f.finding_id == finding_type)
  let filtered :=
    if optFalsy resource then filtered
    else filtered.filter (fun f => f.resource == resource)
  let filtered :=
    if optFalsy severity then filtered
    else filtered.filter
      (fun f => pyLower (f.severity.getD "") == pyLower (severity.getD ""))
  filtered

/-- The deduplication key used by `RemediationEngine.run`. -/
def dedupKey (f : RFinding) : Option String × Option String :=
  (f.finding_id, f.resource)

/-- The deduplication loop of `RemediationEngine.run`: keep the first
finding for each `(finding_id, resource)` pair, tracking seen keys. -/
def dedupFindings (seen : List (Option String × Option String)) :
    List RFinding → List RFinding
  | [] => []
  | f :: rest =>
    let key := dedupKey f
    if key ∈ seen then dedupFindings seen rest
    else f :: dedupFindings (key :: seen) rest

/-- The processing core of `RemediationEngine.run`: filter, deduplicate,
then classify each remaining finding in order (file loading and console
printing omitted). -/
def runRemediation (dry_run : Bool) (exec : List String → CmdResult)
    (findings : List RFinding)
    (finding_type resource severity : Option String) : Results :=
  let findings := filter_findings findings finding_type resource severity
  let unique_findings := dedupFindings [] findings
  unique_findings.foldl (remediate_finding dry_run exec) emptyResults

/-! ## Embedding of `src/scripts/scanning/aggregate_findings.py` -/

/-- The `severity_mapping` dict inside `FindingsAggregator._map_severity`. -/
def severity_mapping : List (String × String) :=
  [("CRITICAL", "Critical"), ("HIGH", "High"), ("MEDIUM", "Medium"),
   ("LOW", "Low"), ("INFO", "Informational"), ("INFORMATIONAL", "Informational")]

/-- Embedding of `FindingsAggregator._map_severity`: upper-case, look up, default to
`"Medium"`. -/
def map_severity (severity : String) : String :=
  let severity_upper := pyUpper severity
  (severity_mapping.lookup severity_upper).getD "Medium"

/-- Python `summary.replace('. ', '.|')`, specialised to this constant
pattern: left-to-right, non-overlapping. -/
def replaceDotSpace : List Char → List Char
  | '.' :: ' ' :: rest => '.' :: '|' :: replaceDotSpace rest
  | c :: rest => c :: replaceDotSpace rest
  | [] => []

/-- The computation `summary.replace('. ', '.|').split('|')` from
`FindingsAggregator._generate_console_steps`. -/
def sentenceFragments (summary : String) : List String :=
  splitOnChar '|' (replaceDotSpace summary.data)

/-- The loop body of `_generate_console_steps`: strip each of the first 5
fragments and keep the non-empty ones longer than 10 characters. -/
def consoleStepsLoop (sentences : List String) : List String :=
  (sentences.take 5).foldl
    (fun steps sentence =>
      let sentence := pyStrip sentence
      if sentence != "" && 10 < sentence.length then steps ++ [sentence]
      else steps)
    []

/-- Embedding of `FindingsAggregator._generate_console_steps`. -/
def generate_console_steps (summary : String) : List String :=
  let sentences := sentenceFragments summary
  let steps := consoleStepsLoop sentences
  if steps.isEmpty then [summary] else steps

/-- Scan for the placeholder pattern `<([^>]+)>` of
`_extract_placeholders_note`: a `<`, then a maximal non-empty run of
non-`>` characters, then `>`; non-overlapping, left to right. The first
argument is recursion fuel (an upper bound on the list length, so never
exhausted when called through `scanPlaceholders`). -/
def scanPlaceholdersAux : Nat → List Char → List String
  | 0, _ => []
  | _, [] => []
  | fuel + 1, '<' :: rest =>
    let content := rest.takeWhile (fun c => c ≠ '>')
    match rest.dropWhile (fun c => c ≠ '>') with
    | '>' :: tail =>
      if content.isEmpty then scanPlaceholdersAux fuel tail
      else String.mk content :: scanPlaceholdersAux fuel tail
    | _ => []
  | fuel + 1, _ :: rest => scanPlaceholdersAux fuel rest

/-- All placeholder matches of `<([^>]+)>` in a character list. -/
def scanPlaceholders (s : List Char) : List String :=
  scanPlaceholdersAux s.length s

/-- Join a list of strings with a separator (Python `sep.join(xs)`). -/
def joinSep (sep : String) : List String → String
  | [] => ""
  | [x] => x
  | x :: xs => x ++ sep ++ joinSep sep xs

/-- Embedding of `FindingsAggregator._extract_placeholders_note`. -/
def extract_placeholders_note (cli_cmd : String) : String :=
  let placeholders := scanPlaceholders cli_cmd.data
  if placeholders.isEmpty then ""
  else "Replace placeholders: " ++
    joinSep ", " (placeholders.map (fun p => "<" ++ p ++ ">"))

/-- One entry of a remediation `options` list: either a code-bearing option
(`cli`, `terraform`, `cloudformation`, `other`) or the synthesized console
option carrying step text. -/
inductive RemOption where
  | codeOption (ty label code note : String)
  | consoleOption (ty label : String) (steps : List String) (note : String)
deriving DecidableEq, Repr

/-- Is this options entry the synthesized console option? -/
def isConsoleOption : RemOption → Bool
  | .consoleOption _ _ _ _ => true
  | .codeOption _ _ _ _ => false

/-- The `Remediation.Recommendation` sub-object of a Prowler record; absent
keys read as `""` through `dict.get(_, '')`. -/
structure Recommendation where
  Text : String
  Url : String
deriving DecidableEq, Repr

/-- The `Remediation.Code` sub-object of a Prowler record. -/
structure RemediationCode where
  CLI : String
  Terraform : String
  NativeIaC : String
  Other : String
deriving DecidableEq, Repr

/-- The `Remediation` object of a Prowler record. `none` on a sub-field
models a present but non-dict value (the `isinstance` guards); a missing
key behaves like an empty dict, i.e. `some` of all-empty fields. -/
structure RemediationInfo where
  recommendation : Option Recommendation
  code : Option RemediationCode
deriving DecidableEq, Repr

/-- The structured remediation record built by
`_extract_prowler_remediation`. -/
structure ProwlerRemediation where
  summary : String
  doc_url : String
  options : List RemOption
deriving DecidableEq, Repr

/-- The code-based options block of `_extract_prowler_remediation`: one
entry per non-empty stripped `CLI` / `Terraform` / `NativeIaC` / `Other`
field, in that order (`none` = the `Code` value was not a dict). -/
def prowlerCodeOptions : Option RemediationCode → List RemOption
  | none => []
  | some code =>
    let options : List RemOption := []
    let cli_cmd := pyStrip code.CLI
    let options :=
      if cli_cmd != "" then
        options ++ [.codeOption "cli" "AWS CLI" cli_cmd
          (extract_placeholders_note cli_cmd)]
      else options
    let terraform_code := pyStrip code.Terraform
    let options :=
      if terraform_code != "" then
        options ++ [.codeOption "terraform" "Terraform" terraform_code
          "Adapt resource names and values to your configuration"]
      else options
    let native_iac := pyStrip code.NativeIaC
    let options :=
      if native_iac != "" then
        options ++ [.codeOption "cloudformation" "CloudFormation" native_iac
          "Adapt resource names and values to your configuration"]
      else options
    let other := pyStrip code.Other
    let options :=
      if other != "" then
        options ++ [.codeOption "other" "Other" other ""]
      else options
    options

/-- Embedding of `FindingsAggregator._extract_prowler_remediation`; the argument is
`none` when the `Remediation` value is not a dict. -/
def extract_prowler_remediation : Option RemediationInfo → ProwlerRemediation
  | none => ⟨"", "", []⟩
  | some info =>
    let summary := match info.recommendation with
      | some rec => rec.Text
      | none => ""
    let doc_url := match info.recommendation with
      | some rec => rec.Url
      | none => ""
    let options := prowlerCodeOptions info.code
    let options :=
      if summary != "" then
        options ++ [.consoleOption "console" "AWS Console"
          (generate_console_steps summary)
          "Manual steps via AWS Management Console"]
      else options
    ⟨summary, doc_url, options⟩

/-- The fields of a ScoutSuite flagged-finding group that
`_normalize_scoutsuite_finding` reads (all through `dict.get`). -/
structure ScoutFindingData where
  level : Option String
  description : Option String
  flagged_items : Option Nat
  rationale : Option String
  references : Option (List String)
deriving DecidableEq, Repr

/-- A normalized finding as produced by the aggregator. The `remediation`
and `timestamp` fields of the Python record are omitted: `generate_summary`
does not read them, and `timestamp` is a wall-clock value. -/
structure NFinding where
  source : String
  cloud_provider : String
  finding_id : String
  title : String
  severity : String
  status : String
  resource : String
  resource_arn : String
  region : String
  account_id : String
  description : String
  issue : String
  risk : String
  compliance : List String
deriving DecidableEq, Repr

/-- The `severity_map` inside `_normalize_scoutsuite_finding`. -/
def scout_severity_map : List (String × String) :=
  [("danger", "High"), ("warning", "Medium"), ("info", "Low")]

/-- Embedding of `FindingsAggregator._normalize_scoutsuite_finding`. -/
def normalize_scoutsuite_finding (finding_id : String)
    (finding_data : ScoutFindingData) (service_name : String)
    (item_id : Option String) : NFinding :=
  let level := finding_data.level.getD "warning"
  let severity := (scout_severity_map.lookup level).getD "Medium"
  let resource :=
    match item_id with
    | none => service_name ++ " (multiple resources)"
    | some iid =>
      if iid == "" then service_name ++ " (multiple resources)"
      else if iid.data.contains '.' then
        ((splitOnChar '.' iid.data).getLastD iid)
      else iid
  { source := "ScoutSuite"
    cloud_provider := "Azure"
    finding_id := finding_id
    title := finding_data.description.getD finding_id
    severity := severity
    status := "FAIL"
    resource := resource
    resource_arn := (match item_id with
      | some iid => if iid == "" then "" else iid
      | none => "")
    region := "global"
    account_id := ""
    description := finding_data.description.getD ""
    issue := finding_data.description.getD "" ++ " - " ++
      toString (finding_data.flagged_items.getD 0) ++ " resource(s) affected"
    risk := finding_data.rationale.getD ""
    compliance := finding_data.references.getD [] }

/-- Incrementing one key of a Python counting dict
(`d[k] = d.get(k, 0) + 1`), preserving insertion order. -/
def bumpCount (m : List (String × Nat)) (k : String) : List (String × Nat) :=
  match m with
  | [] => [(k, 1)]
  | (k', v) :: rest =>
    if k' == k then (k', v + 1) :: rest else (k', v) :: bumpCount rest k

/-- The four counting dicts built by the loop in `generate_summary`. -/
structure SummaryCounts where
  by_severity : List (String × Nat)
  by_cloud_provider : List (String × Nat)
  by_source : List (String × Nat)
  by_account : List (String × Nat)
deriving DecidableEq, Repr

/-- One iteration of the counting loop in `generate_summary`. The account
counter is only bumped when `account_id` is truthy (non-empty). -/
def summaryStep (acc : SummaryCounts) (finding : NFinding) : SummaryCounts :=
  let acc := { acc with by_severity := bumpCount acc.by_severity finding.severity }
  let acc := { acc with
    by_cloud_provider := bumpCount acc.by_cloud_provider finding.cloud_provider }
  let acc := { acc with by_source := bumpCount acc.by_source finding.source }
  if finding.account_id != "" then
    { acc with by_account := bumpCount acc.by_account finding.account_id }
  else acc

/-- The summary record built by `generate_summary` (its `timestamp` field
is omitted as a wall-clock value). -/
structure Summary where
  total_findings : Nat
  by_severity : List (String × Nat)
  by_cloud_provider : List (String × Nat)
  by_source : List (String × Nat)
  by_account : List (String × Nat)
  accounts : List String
deriving DecidableEq, Repr

/-- Embedding of `FindingsAggregator.generate_summary`. -/
def generate_summary (findings : List NFinding) : Summary :=
  if findings.isEmpty then ⟨0, [], [], [], [], []⟩
  else
    let c := findings.foldl summaryStep ⟨[], [], [], []⟩
    ⟨findings.length, c.by_severity, c.by_cloud_provider, c.by_source,
      c.by_account, c.by_account.map Prod.fst⟩

/-- Sum of the counts of one counting dict. -/
def sumCounts (m : List (String × Nat)) : Nat := (m.map Prod.snd).sum

/-- Total number of entries across the four result buckets. -/
def totalResults (r : Results) : Nat :=
  r.fixed.length + r.failed.length + r.skipped.length + r.manual.length

/-! ## Derived predicates used by the statements -/

/-- The conjunction of the three `filter_findings` criteria as a single
predicate: each stage matches exactly when its filter is falsy (absent or
empty) or its field comparison holds. -/
def matchesFilters (finding_type resource severity : Option String)
    (f : RFinding) : Bool :=
  (optFalsy finding_type || f.finding_id == finding_type) &&
  ((optFalsy resource || f.resource == resource) &&
   (optFalsy severity ||
     pyLower (f.severity.getD "") == pyLower (severity.getD "")))

/-- The declarative form of the console-steps computation: the first five
sentence fragments, stripped, keeping the non-empty ones longer than 10
characters. -/
def goodSteps (summary : String) : List String :=
  (((sentenceFragments summary).take 5).map pyStrip).filter
    (fun s => s != "" && 10 < s.length)

/-! ## Concrete sample data for witnesses and counterexamples -/

/-- An executor whose commands all succeed with empty stderr. -/
def noExec : List String → CmdResult := fun _ => ⟨0, ""⟩

/-- An executor returning the same result for every command. -/
def constExec (res : CmdResult) : List String → CmdResult := fun _ => res

/-- A finding routed to the manual-only logging fixer. -/
def exLogFinding : RFinding :=
  ⟨some "s3_bucket_logging_enabled", some "audit-bucket", some "Medium",
   some "123456789012", none⟩

/-- A finding whose type has no registered fixer. -/
def exUnknownFinding : RFinding :=
  ⟨some "totally_unknown_check", some "some-bucket", none, none, none⟩

/-- A well-formed versioning finding. -/
def exVersioningFinding : RFinding :=
  ⟨some "s3_bucket_versioning_enabled", some "my-bucket", some "High",
   some "123456789012", some "us-east-1"⟩

/-- A versioning finding with an empty `resource`. -/
def exEmptyResourceFinding : RFinding :=
  ⟨some "s3_bucket_versioning_enabled", some "", some "High",
   some "123456789012", none⟩

/-- An access-analyzer finding. -/
def exAnalyzerFinding : RFinding :=
  ⟨some "accessanalyzer_enabled", none, some "Low", some "123456789012",
   some "eu-west-1"⟩

/-- A finding whose `finding_id` differs from a filter value only by case. -/
def exUpperFinding : RFinding :=
  ⟨some "S3_BUCKET_PUBLIC_ACCESS", some "b", some "High", none, none⟩

/-- A command result carrying the idempotent-conflict signature on a
non-zero exit. -/
def conflictRes : CmdResult :=
  ⟨254, "An error occurred (ConflictException) when calling the CreateAnalyzer operation"⟩

/-- A successful command result. -/
def okRes : CmdResult := ⟨0, ""⟩

/-- A Prowler remediation block with a non-empty recommendation and no code
snippets. -/
def exRemInfo : Option RemediationInfo :=
  some ⟨some ⟨"Enable default encryption on the bucket. Review the bucket policy afterwards.",
              "https://docs.aws"⟩,
        some ⟨"", "", "", ""⟩⟩

/-- A flagged ScoutSuite finding group. -/
def exScoutData : ScoutFindingData :=
  ⟨some "danger", some "Public traffic should not be allowed", some 2,
   some "exposure", none⟩

/-- A ScoutSuite-normalized finding (its `account_id` is empty). -/
def exScoutFinding : NFinding :=
  normalize_scoutsuite_finding "network-public" exScoutData "network" none

/-- A Prowler-style normalized finding with a non-empty account. -/
def exAwsFinding : NFinding :=
  { source := "Prowler", cloud_provider := "AWS",
    finding_id := "s3_bucket_versioning_enabled",
    title := "S3 versioning", severity := "High", status := "FAIL",
    resource := "my-bucket", resource_arn := "arn:aws:s3:::my-bucket",
    region := "us-east-1", account_id := "123456789012",
    description := "check versioning", issue := "versioning disabled",
    risk := "data loss", compliance := ["CIS-1.4"] }
/-! ## Helper lemmas -/

set_option maxRecDepth 100000

theorem listHasSub_of_isPrefixOf (pat : List Char) :
    ∀ s : List Char, pat.isPrefixOf s = true → listHasSub pat s = true := by
  intro s h
  cases s with
  | nil => simpa [listHasSub] using h
  | cons c rest => simp [listHasSub, h]

theorem strContains_of_data_prefix (pre rest pat : String)
    (h : pat.data <+: pre.data) : strContains (pre ++ rest) pat = true := by
  have hp : pat.data <+: (pre ++ rest).data := by
    rw [String.data_append]
    exact h.trans (pre.data.prefix_append rest.data)
  exact listHasSub_of_isPrefixOf _ _ (List.isPrefixOf_iff_prefix.mpr hp)

theorem remediate_eq_skipped (d : Bool) (e : List String → CmdResult)
    (r : Results) (f : RFinding)
    (h : REMEDIATION_MAP.lookup (f.finding_id.getD "unknown") = none) :
    remediate_finding d e r f =
      { r with skipped := r.skipped ++
          [⟨f.finding_id.getD "unknown", f.resource.getD "unknown",
            "No automated remediation available"⟩] } := by
  simp only [remediate_finding, h]

theorem remediate_eq_manual (d : Bool) (e : List String → CmdResult)
    (r : Results) (f : RFinding) (fixer : Fixer)
    (h : REMEDIATION_MAP.lookup (f.finding_id.getD "unknown") = some fixer)
    (hm : strContains (fixer f d e).message "[MANUAL]" = true) :
    remediate_finding d e r f =
      { r with manual := r.manual ++
          [⟨f.finding_id.getD "unknown", f.resource.getD "unknown",
            (fixer f d e).message⟩] } := by
  simp only [remediate_finding, h, hm, if_pos]

theorem remediate_eq_fixed (d : Bool) (e : List String → CmdResult)
    (r : Results) (f : RFinding) (fixer : Fixer)
    (h : REMEDIATION_MAP.lookup (f.finding_id.getD "unknown") = some fixer)
    (hm : strContains (fixer f d e).message "[MANUAL]" = false)
    (hs : (fixer f d e).success = true) :
    remediate_finding d e r f =
      { r with fixed := r.fixed ++
          [⟨f.finding_id.getD "unknown", f.resource.getD "unknown",
            (fixer f d e).message⟩] } := by
  simp only [remediate_finding, h, hm, hs, Bool.false_eq_true, if_false, if_true]

theorem remediate_eq_failed (d : Bool) (e : List String → CmdResult)
    (r : Results) (f : RFinding) (fixer : Fixer)
    (h : REMEDIATION_MAP.lookup (f.finding_id.getD "unknown") = some fixer)
    (hm : strContains (fixer f d e).message "[MANUAL]" = false)
    (hs : (fixer f d e).success = false) :
    remediate_finding d e r f =
      { r with failed := r.failed ++
          [⟨f.finding_id.getD "unknown", f.resource.getD "unknown",
            (fixer f d e).message⟩] } := by
  simp only [remediate_finding, h, hm, hs, Bool.false_eq_true, if_false]

theorem totalResults_remediate (d : Bool) (e : List String → CmdResult)
    (r : Results) (f : RFinding) :
    totalResults (remediate_finding d e r f) = totalResults r + 1 := by
  rcases h : REMEDIATION_MAP.lookup (f.finding_id.getD "unknown") with _ | fixer
  · rw [remediate_eq_skipped d e r f h]; simp [totalResults]; omega
  · rcases hm : strContains (fixer f d e).message "[MANUAL]" with _ | _
    · rcases hs : (fixer f d e).success with _ | _
      · rw [remediate_eq_failed d e r f fixer h hm hs]; simp [totalResults]; omega
      · rw [remediate_eq_fixed d e r f fixer h hm hs]; simp [totalResults]; omega
    · rw [remediate_eq_manual d e r f fixer h hm]; simp [totalResults]; omega

theorem totalResults_foldl (d : Bool) (e : List String → CmdResult) :
    ∀ (l : List RFinding) (r : Results),
      totalResults (l.foldl (remediate_finding d e) r) = totalResults r + l.length := by
  intro l
  induction l with
  | nil => intro r; simp
  | cons f rest ih =>
    intro r
    simp only [List.foldl_cons, ih, totalResults_remediate, List.length_cons]
    omega
theorem dedup_key_mem :
    ∀ (fs : List RFinding) (seen : List (Option String × Option String))
      (k : Option String × Option String),
      k ∈ (dedupFindings seen fs).map dedupKey ↔
        k ∈ fs.map dedupKey ∧ k ∉ seen := by
  intro fs
  induction fs with
  | nil => intro seen k; simp [dedupFindings]
  | cons f rest ih =>
    intro seen k
    by_cases h : dedupKey f ∈ seen
    · rw [show dedupFindings seen (f :: rest) = dedupFindings seen rest by
        simp [dedupFindings, h]]
      rw [ih]
      simp only [List.map_cons, List.mem_cons]
      constructor
      · rintro ⟨hk, hns⟩; exact ⟨Or.inr hk, hns⟩
      · rintro ⟨hk | hk, hns⟩
        · exact absurd (hk ▸ h) hns
        · exact ⟨hk, hns⟩
    · rw [show dedupFindings seen (f :: rest) =
          f :: dedupFindings (dedupKey f :: seen) rest by
        simp [dedupFindings, h]]
      simp only [List.map_cons, List.mem_cons, ih, List.mem_cons, not_or]
      constructor
      · rintro (rfl | ⟨hk, hn1, hn2⟩)
        · exact ⟨Or.inl rfl, h⟩
        · exact ⟨Or.inr hk, hn2⟩
      · rintro ⟨hk | hk, hns⟩
        · exact Or.inl hk
        · by_cases hkf : k = dedupKey f
          · exact Or.inl hkf
          · exact Or.inr ⟨hk, hkf, hns⟩

theorem dedup_key_nodup :
    ∀ (fs : List RFinding) (seen : List (Option String × Option String)),
      ((dedupFindings seen fs).map dedupKey).Nodup := by
  intro fs
  induction fs with
  | nil => intro seen; simp [dedupFindings]
  | cons f rest ih =>
    intro seen
    by_cases h : dedupKey f ∈ seen
    · rw [show dedupFindings seen (f :: rest) = dedupFindings seen rest by
        simp [dedupFindings, h]]
      exact ih seen
    · rw [show dedupFindings seen (f :: rest) =
          f :: dedupFindings (dedupKey f :: seen) rest by
        simp [dedupFindings, h]]
      simp only [List.map_cons, List.nodup_cons]
      refine ⟨fun hmem => ?_, ih _⟩
      rcases (dedup_key_mem rest (dedupKey f :: seen) _).mp hmem with ⟨_, hns⟩
      exact hns (List.mem_cons_self _ _)

theorem dedup_length_card (fs : List RFinding) :
    ((dedupFindings [] fs).map dedupKey).length = (fs.map dedupKey).toFinset.card := by
  have h1 := dedup_key_nodup fs []
  have h2 : ((dedupFindings [] fs).map dedupKey).toFinset =
      (fs.map dedupKey).toFinset := by
    ext k
    simp only [List.mem_toFinset]
    rw [dedup_key_mem]
    simp
  rw [← List.toFinset_card_of_nodup h1, h2]

/-- C2: the remediation run deduplicates by `(finding_id, resource)` before
processing: the total number of result entries across the four buckets
equals the number of distinct key pairs among the (filtered) findings, the
processed list carries each key at most once, and every finding's key is
processed. -/
theorem run_dedup_unique (d : Bool) (e : List String → CmdResult)
    (findings : List RFinding) (ft rs sv : Option String) :
    totalResults (runRemediation d e findings ft rs sv) =
      ((filter_findings findings ft rs sv).map dedupKey).toFinset.card ∧
    ((dedupFindings [] (filter_findings findings ft rs sv)).map dedupKey).Nodup ∧
    ∀ f ∈ filter_findings findings ft rs sv,
      dedupKey f ∈ (dedupFindings [] (filter_findings findings ft rs sv)).map dedupKey := by
  refine ⟨?_, dedup_key_nodup _ _, ?_⟩
  · rw [show runRemediation d e findings ft rs sv =
        (dedupFindings [] (filter_findings findings ft rs sv)).foldl
          (remediate_finding d e) emptyResults from rfl]
    rw [totalResults_foldl, ← dedup_length_card, List.length_map]
    simp [totalResults, emptyResults]
  · intro f hf
    rw [dedup_key_mem]
    exact ⟨List.mem_map_of_mem dedupKey hf, List.not_mem_nil _⟩

/-- C2 witness: two findings sharing `(finding_id, resource)` produce one
result entry, whose key is processed exactly once. -/
theorem run_dedup_unique_witness :
    totalResults (runRemediation true noExec [exVersioningFinding, exVersioningFinding]
        none none none) =
      (([exVersioningFinding, exVersioningFinding] : List RFinding).map dedupKey).toFinset.card ∧
    totalResults (runRemediation true noExec [exVersioningFinding, exVersioningFinding]
        none none none) = 1 ∧
    dedupKey exVersioningFinding ∈
      (dedupFindings [] (filter_findings [exVersioningFinding, exVersioningFinding]
        none none none)).map dedupKey := by
  have h := run_dedup_unique true noExec [exVersioningFinding, exVersioningFinding]
    none none none
  exact ⟨h.1, h.1.trans (by decide), h.2.2 exVersioningFinding (by decide)⟩

/-- C3 counterexample: the skip reason recorded by the code is
`"No automated remediation available"` (capital N), not the lower-case
message the claim states. -/
theorem skipped_message_cex :
    (remediate_finding true noExec emptyResults exUnknownFinding).skipped =
      [⟨"totally_unknown_check", "some-bucket", "No automated remediation available"⟩] ∧
    (remediate_finding true noExec emptyResults exUnknownFinding).skipped ≠
      [⟨"totally_unknown_check", "some-bucket", "no automated remediation available"⟩] := by
  constructor
  · decide
  · decide

/-- C3 (amended): a finding whose `finding_id` has no entry in the
remediation table is classified `skipped` with the reason
`"No automated remediation available"`; the other three buckets are
untouched and no fixer is invoked (no external command is issued). -/
theorem skipped_unmapped (d : Bool) (e : List String → CmdResult)
    (r : Results) (f : RFinding)
    (h : REMEDIATION_MAP.lookup (f.finding_id.getD "unknown") = none) :
    remediate_finding d e r f =
      { r with skipped := r.skipped ++
          [⟨f.finding_id.getD "unknown", f.resource.getD "unknown",
            "No automated remediation available"⟩] } ∧
    remediate_commands d e f = [] := by
  refine ⟨remediate_eq_skipped d e r f h, ?_⟩
  simp only [remediate_commands, h]

/-- C3 witness: a concrete unmapped finding lands in `skipped` with no
command issued. -/
theorem skipped_unmapped_witness :
    remediate_finding true noExec emptyResults exUnknownFinding =
      { emptyResults with skipped :=
          [⟨"totally_unknown_check", "some-bucket",
            "No automated remediation available"⟩] } ∧
    remediate_commands true noExec exUnknownFinding = [] :=
  skipped_unmapped true noExec emptyResults exUnknownFinding (by rfl)

/-- C4: a fixer message containing the `[MANUAL]` tag always classifies the
finding into the `manual` bucket, whatever the fixer's boolean result. -/
theorem manual_tag_classifies (d : Bool) (e : List String → CmdResult)
    (r : Results) (f : RFinding) (fixer : Fixer)
    (h : REMEDIATION_MAP.lookup (f.finding_id.getD "unknown") = some fixer)
    (hm : strContains (fixer f d e).message "[MANUAL]" = true) :
    remediate_finding d e r f =
      { r with manual := r.manual ++
          [⟨f.finding_id.getD "unknown", f.resource.getD "unknown",
            (fixer f d e).message⟩] } :=
  remediate_eq_manual d e r f fixer h hm

/-- C4 witness: the logging fixer returns `(false, "[MANUAL] ...")` in
apply mode and the finding lands in `manual`, not `failed`. -/
theorem manual_tag_classifies_witness :
    remediate_finding false noExec emptyResults exLogFinding =
      { emptyResults with manual :=
          [⟨"s3_bucket_logging_enabled", "audit-bucket",
            (fix_s3_logging exLogFinding false noExec).message⟩] } :=
  manual_tag_classifies false noExec emptyResults exLogFinding fix_s3_logging
    (by rfl) (by decide)

theorem enc_val_fail (f : RFinding) (d : Bool) (e : List String → CmdResult)
    (hv : (optFalsy f.resource || f.resource == f.account_id) = true) :
    fix_s3_default_encryption f d e =
      ⟨[], false, "Cannot determine bucket name from finding"⟩ := by
  simp [fix_s3_default_encryption, hv]

theorem enc_dry (f : RFinding) (e : List String → CmdResult)
    (hv : (optFalsy f.resource || f.resource == f.account_id) = false) :
    fix_s3_default_encryption f true e =
      ⟨[], true, "[DRY RUN] Would enable AES-256 encryption on bucket: " ++
        f.resource.getD ""⟩ := by
  simp [fix_s3_default_encryption, hv]

theorem pab_val_fail (f : RFinding) (d : Bool) (e : List String → CmdResult)
    (hv : (optFalsy f.resource || f.resource == f.account_id) = true) :
    fix_s3_public_access_block f d e =
      ⟨[], false, "Cannot determine bucket name from finding"⟩ := by
  simp [fix_s3_public_access_block, hv]

theorem pab_dry (f : RFinding) (e : List String → CmdResult)
    (hv : (optFalsy f.resource || f.resource == f.account_id) = false) :
    fix_s3_public_access_block f true e =
      ⟨[], true, "[DRY RUN] Would block public access on bucket: " ++
        f.resource.getD ""⟩ := by
  simp [fix_s3_public_access_block, hv]

theorem ver_val_fail (f : RFinding) (d : Bool) (e : List String → CmdResult)
    (hv : (optFalsy f.resource || f.resource == f.account_id) = true) :
    fix_s3_versioning f d e =
      ⟨[], false, "Cannot determine bucket name from finding"⟩ := by
  simp [fix_s3_versioning, hv]

theorem ver_dry (f : RFinding) (e : List String → CmdResult)
    (hv : (optFalsy f.resource || f.resource == f.account_id) = false) :
    fix_s3_versioning f true e =
      ⟨[], true, "[DRY RUN] Would enable versioning on bucket: " ++
        f.resource.getD ""⟩ := by
  simp [fix_s3_versioning, hv]

theorem acct_val_fail (f : RFinding) (d : Bool) (e : List String → CmdResult)
    (hv : optFalsy f.account_id = true) :
    fix_account_level_public_access_block f d e =
      ⟨[], false, "Cannot determine account ID from finding"⟩ := by
  simp [fix_account_level_public_access_block, hv]

theorem acct_dry (f : RFinding) (e : List String → CmdResult)
    (hv : optFalsy f.account_id = false) :
    fix_account_level_public_access_block f true e =
      ⟨[], true,
        "[DRY RUN] Would enable account-level S3 public access block for account: " ++
        f.account_id.getD ""⟩ := by
  simp [fix_account_level_public_access_block, hv]

theorem ana_dry (f : RFinding) (e : List String → CmdResult) :
    fix_iam_access_analyzer f true e =
      ⟨[], true, "[DRY RUN] Would create IAM Access Analyzer in region: " ++
        f.region.getD "us-east-1"⟩ := by
  simp [fix_iam_access_analyzer]

theorem enc_apply (f : RFinding) (res : CmdResult)
    (hv : (optFalsy f.resource || f.resource == f.account_id) = false) :
    (fix_s3_default_encryption f false (constExec res)).commands.length = 1 ∧
    (fix_s3_default_encryption f false (constExec res)).success =
      (res.returncode == 0) := by
  rcases hrc : res.returncode == 0 with _ | _ <;>
    simp [fix_s3_default_encryption, constExec, hv, hrc]

theorem pab_apply (f : RFinding) (res : CmdResult)
    (hv : (optFalsy f.resource || f.resource == f.account_id) = false) :
    (fix_s3_public_access_block f false (constExec res)).commands.length = 1 ∧
    (fix_s3_public_access_block f false (constExec res)).success =
      (res.returncode == 0) := by
  rcases hrc : res.returncode == 0 with _ | _ <;>
    simp [fix_s3_public_access_block, constExec, hv, hrc]

theorem ver_apply (f : RFinding) (res : CmdResult)
    (hv : (optFalsy f.resource || f.resource == f.account_id) = false) :
    (fix_s3_versioning f false (constExec res)).commands.length = 1 ∧
    (fix_s3_versioning f false (constExec res)).success =
      (res.returncode == 0) := by
  rcases hrc : res.returncode == 0 with _ | _ <;>
    simp [fix_s3_versioning, constExec, hv, hrc]

theorem acct_apply (f : RFinding) (res : CmdResult)
    (hv : optFalsy f.account_id = false) :
    (fix_account_level_public_access_block f false (constExec res)).commands.length = 1 ∧
    (fix_account_level_public_access_block f false (constExec res)).success =
      (res.returncode == 0) := by
  rcases hrc : res.returncode == 0 with _ | _ <;>
    simp [fix_account_level_public_access_block, constExec, hv, hrc]

theorem ana_apply (f : RFinding) (res : CmdResult) :
    (fix_iam_access_analyzer f false (constExec res)).commands.length = 1 ∧
    (fix_iam_access_analyzer f false (constExec res)).success =
      (res.returncode == 0 || strContains res.stderr "ConflictException") := by
  rcases hrc : res.returncode == 0 with _ | _
  · rcases hcf : strContains res.stderr "ConflictException" with _ | _ <;>
      simp [fix_iam_access_analyzer, constExec, hrc, hcf]
  · simp [fix_iam_access_analyzer, constExec, hrc]

theorem dryrun_enc (f : RFinding) (e : List String → CmdResult) :
    (fix_s3_default_encryption f true e).commands = [] ∧
    ((fix_s3_default_encryption f true e).success = true →
      strContains (fix_s3_default_encryption f true e).message "[DRY RUN]" = true) := by
  rcases hv : optFalsy f.resource || f.resource == f.account_id with _ | _
  · rw [enc_dry f e hv]
    exact ⟨rfl, fun _ => strContains_of_data_prefix _ _ _ (by decide)⟩
  · rw [enc_val_fail f true e hv]
    exact ⟨rfl, by intro h; cases h⟩

theorem dryrun_pab (f : RFinding) (e : List String → CmdResult) :
    (fix_s3_public_access_block f true e).commands = [] ∧
    ((fix_s3_public_access_block f true e).success = true →
      strContains (fix_s3_public_access_block f true e).message "[DRY RUN]" = true) := by
  rcases hv : optFalsy f.resource || f.resource == f.account_id with _ | _
  · rw [pab_dry f e hv]
    exact ⟨rfl, fun _ => strContains_of_data_prefix _ _ _ (by decide)⟩
  · rw [pab_val_fail f true e hv]
    exact ⟨rfl, by intro h; cases h⟩

theorem dryrun_ver (f : RFinding) (e : List String → CmdResult) :
    (fix_s3_versioning f true e).commands = [] ∧
    ((fix_s3_versioning f true e).success = true →
      strContains (fix_s3_versioning f true e).message "[DRY RUN]" = true) := by
  rcases hv : optFalsy f.resource || f.resource == f.account_id with _ | _
  · rw [ver_dry f e hv]
    exact ⟨rfl, fun _ => strContains_of_data_prefix _ _ _ (by decide)⟩
  · rw [ver_val_fail f true e hv]
    exact ⟨rfl, by intro h; cases h⟩

theorem dryrun_log (f : RFinding) (e : List String → CmdResult) :
    (fix_s3_logging f true e).commands = [] ∧
    ((fix_s3_logging f true e).success = true →
      strContains (fix_s3_logging f true e).message "[DRY RUN]" = true) :=
  ⟨rfl, by intro h; cases h⟩

theorem dryrun_ana (f : RFinding) (e : List String → CmdResult) :
    (fix_iam_access_analyzer f true e).commands = [] ∧
    ((fix_iam_access_analyzer f true e).success = true →
      strContains (fix_iam_access_analyzer f true e).message "[DRY RUN]" = true) := by
  rw [ana_dry f e]
  exact ⟨rfl, fun _ => strContains_of_data_prefix _ _ _ (by decide)⟩

theorem dryrun_acct (f : RFinding) (e : List String → CmdResult) :
    (fix_account_level_public_access_block f true e).commands = [] ∧
    ((fix_account_level_public_access_block f true e).success = true →
      strContains (fix_account_level_public_access_block f true e).message "[DRY RUN]" = true) := by
  rcases hv : optFalsy f.account_id with _ | _
  · rw [acct_dry f e hv]
    exact ⟨rfl, fun _ => strContains_of_data_prefix _ _ _ (by decide)⟩
  · rw [acct_val_fail f true e hv]
    exact ⟨rfl, by intro h; cases h⟩

/-- C1 counterexample: the logging fixer is registered in the remediation
table, issues no command under `dry_run=true`, yet its returned message
does not contain the `[DRY RUN]` marker. -/
theorem dry_run_marker_cex :
    ("s3_bucket_logging_enabled", fix_s3_logging) ∈ REMEDIATION_MAP ∧
    (fix_s3_logging exLogFinding true noExec).commands = [] ∧
    strContains (fix_s3_logging exLogFinding true noExec).message "[DRY RUN]" = false := by
  refine ⟨?_, rfl, by decide⟩
  simp [REMEDIATION_MAP]

/-- C1 (amended): every fixer registered in the remediation table issues no
external command when invoked with `dry_run=true`, and every message it
returns with boolean result `true` contains the `[DRY RUN]` marker
(messages returned with result `false` — validation failures and the
manual-only logging fixer — carry no marker). -/
theorem dry_run_no_commands (name : String) (fixer : Fixer)
    (hmem : (name, fixer) ∈ REMEDIATION_MAP)
    (f : RFinding) (e : List String → CmdResult) :
    (fixer f true e).commands = [] ∧
    ((fixer f true e).success = true →
      strContains (fixer f true e).message "[DRY RUN]" = true) := by
  simp only [REMEDIATION_MAP, List.mem_cons, List.not_mem_nil, or_false,
    Prod.mk.injEq] at hmem
  rcases hmem with ⟨-, e1⟩ | ⟨-, e2⟩ | ⟨-, e3⟩ | ⟨-, e4⟩ | ⟨-, e5⟩ |
    ⟨-, e6⟩ | ⟨-, e7⟩ | ⟨-, e8⟩ | ⟨-, e9⟩ | ⟨-, ea⟩ | ⟨-, eb⟩
  · subst e1; exact dryrun_enc f e
  · subst e2; exact dryrun_enc f e
  · subst e3; exact dryrun_pab f e
  · subst e4; exact dryrun_pab f e
  · subst e5; exact dryrun_pab f e
  · subst e6; exact dryrun_pab f e
  · subst e7; exact dryrun_ver f e
  · subst e8; exact dryrun_ver f e
  · subst e9; exact dryrun_log f e
  · subst ea; exact dryrun_ana f e
  · subst eb; exact dryrun_acct f e

/-- C1 witness: the registered versioning fixer at a concrete finding. -/
theorem dry_run_no_commands_witness :
    (fix_s3_versioning exVersioningFinding true noExec).commands = [] ∧
    ((fix_s3_versioning exVersioningFinding true noExec).success = true →
      strContains (fix_s3_versioning exVersioningFinding true noExec).message
        "[DRY RUN]" = true) :=
  dry_run_no_commands "s3_bucket_versioning_enabled" fix_s3_versioning
    (by simp [REMEDIATION_MAP]) exVersioningFinding noExec

/-- C7: every S3 bucket fixer (default encryption, public access block,
versioning) rejects a finding whose `resource` is missing/empty or equal to
its `account_id`: it returns `(false, reason)` without issuing a command,
and the engine classifies the finding as `failed`. -/
theorem s3_fixer_validation (fixer : Fixer)
    (hf : fixer = fix_s3_default_encryption ∨ fixer = fix_s3_public_access_block ∨
      fixer = fix_s3_versioning)
    (f : RFinding) (d : Bool) (e : List String → CmdResult)
    (hv : optFalsy f.resource = true ∨ f.resource = f.account_id) :
    fixer f d e = ⟨[], false, "Cannot determine bucket name from finding"⟩ ∧
    ∀ (r : Results) (fid : String), f.finding_id = some fid →
      REMEDIATION_MAP.lookup fid = some fixer →
      remediate_finding d e r f =
        { r with failed := r.failed ++ [⟨fid, f.resource.getD "unknown",
            "Cannot determine bucket name from finding"⟩] } := by
  have hcond : (optFalsy f.resource || f.resource == f.account_id) = true := by
    rcases hv with h | h
    · simp [h]
    · simp [h]
  have hout : fixer f d e = ⟨[], false, "Cannot determine bucket name from finding"⟩ := by
    rcases hf with rfl | rfl | rfl
    exacts [enc_val_fail f d e hcond, pab_val_fail f d e hcond, ver_val_fail f d e hcond]
  refine ⟨hout, ?_⟩
  intro r fid hfid hlook
  have hgd : f.finding_id.getD "unknown" = fid := by rw [hfid]; rfl
  have h2 := remediate_eq_failed d e r f fixer (by rw [hgd]; exact hlook)
    (by rw [hout]; decide) (by rw [hout])
  simp only [h2, hout, hgd]

/-- C7 witness: a versioning finding with an empty resource fails
validation and lands in `failed`. -/
theorem s3_fixer_validation_witness :
    fix_s3_versioning exEmptyResourceFinding false noExec =
      ⟨[], false, "Cannot determine bucket name from finding"⟩ ∧
    remediate_finding false noExec emptyResults exEmptyResourceFinding =
      { emptyResults with failed := [⟨"s3_bucket_versioning_enabled", "",
          "Cannot determine bucket name from finding"⟩] } := by
  have h := s3_fixer_validation fix_s3_versioning (Or.inr (Or.inr rfl))
    exEmptyResourceFinding false noExec (Or.inl (by decide))
  refine ⟨h.1, ?_⟩
  have h2 := h.2 emptyResults "s3_bucket_versioning_enabled" rfl (by rfl)
  simpa using h2

/-- C8 counterexample: the same non-zero exit with the conflict signature
`ConflictException` in stderr is treated as success by
`fix_iam_access_analyzer` but as failure by `fix_s3_versioning` — the
conflict inspection is not performed by every fixer. -/
theorem apply_conflict_cex :
    strContains conflictRes.stderr "ConflictException" = true ∧
    (conflictRes.returncode == 0) = false ∧
    (fix_iam_access_analyzer exAnalyzerFinding false (constExec conflictRes)).success = true ∧
    (fix_s3_versioning exVersioningFinding false (constExec conflictRes)).success = false := by
  decide

/-- C8 (amended): with `dry_run=false` and validation passed, each
command-issuing fixer issues exactly one external command; a zero exit
yields success and classification `fixed`; only `fix_iam_access_analyzer`
treats a non-zero exit carrying `ConflictException` in stderr as success,
while the S3 and account-level fixers fail on every non-zero exit,
classified `failed` (when the stderr-derived message carries no `[MANUAL]`
tag). -/
theorem apply_mode_spec (f : RFinding) (res : CmdResult)
    (hb : (optFalsy f.resource || f.resource == f.account_id) = false)
    (ha : optFalsy f.account_id = false) :
    ((fix_s3_default_encryption f false (constExec res)).commands.length = 1 ∧
      (fix_s3_default_encryption f false (constExec res)).success = (res.returncode == 0)) ∧
    ((fix_s3_public_access_block f false (constExec res)).commands.length = 1 ∧
      (fix_s3_public_access_block f false (constExec res)).success = (res.returncode == 0)) ∧
    ((fix_s3_versioning f false (constExec res)).commands.length = 1 ∧
      (fix_s3_versioning f false (constExec res)).success = (res.returncode == 0)) ∧
    ((fix_account_level_public_access_block f false (constExec res)).commands.length = 1 ∧
      (fix_account_level_public_access_block f false (constExec res)).success = (res.returncode == 0)) ∧
    ((fix_iam_access_analyzer f false (constExec res)).commands.length = 1 ∧
      (fix_iam_access_analyzer f false (constExec res)).success =
        (res.returncode == 0 || strContains res.stderr "ConflictException")) ∧
    (∀ (fixer : Fixer) (fid : String) (r : Results) (e : List String → CmdResult),
      f.finding_id = some fid →
      REMEDIATION_MAP.lookup fid = some fixer →
      strContains (fixer f false e).message "[MANUAL]" = false →
      ((fixer f false e).success = true →
        remediate_finding false e r f =
          { r with fixed := r.fixed ++ [⟨fid, f.resource.getD "unknown",
              (fixer f false e).message⟩] }) ∧
      ((fixer f false e).success = false →
        remediate_finding false e r f =
          { r with failed := r.failed ++ [⟨fid, f.resource.getD "unknown",
              (fixer f false e).message⟩] })) := by
  refine ⟨enc_apply f res hb, pab_apply f res hb, ver_apply f res hb,
    acct_apply f res ha, ana_apply f res, ?_⟩
  intro fixer fid r e hfid hlook hm
  have hgd : f.finding_id.getD "unknown" = fid := by rw [hfid]; rfl
  constructor
  · intro hs
    have h2 := remediate_eq_fixed false e r f fixer (by rw [hgd]; exact hlook) hm hs
    simpa [hgd] using h2
  · intro hs
    have h2 := remediate_eq_failed false e r f fixer (by rw [hgd]; exact hlook) hm hs
    simpa [hgd] using h2

/-- C8 witness: the versioning fixer on a valid finding with a zero exit. -/
theorem apply_mode_spec_witness :
    (fix_s3_versioning exVersioningFinding false (constExec okRes)).commands.length = 1 ∧
    (fix_s3_versioning exVersioningFinding false (constExec okRes)).success =
      (okRes.returncode == 0) :=
  (apply_mode_spec exVersioningFinding okRes (by decide) (by decide)).2.2.1

/-- C5: `map_severity` is total: any string whose upper-casing is not one
of the six known keys (including the empty string) maps to `"Medium"`, the
six keys map to their fixed levels, and all casings of `critical` map to
`"Critical"`. -/
theorem map_severity_total :
    (∀ s : String,
      pyUpper s ∉ (["CRITICAL", "HIGH", "MEDIUM", "LOW", "INFO",
        "INFORMATIONAL"] : List String) →
      map_severity s = "Medium") ∧
    map_severity "critical" = "Critical" ∧
    map_severity "Critical" = "Critical" ∧
    map_severity "CRITICAL" = "Critical" ∧
    map_severity "HIGH" = "High" ∧
    map_severity "MEDIUM" = "Medium" ∧
    map_severity "LOW" = "Low" ∧
    map_severity "INFO" = "Informational" ∧
    map_severity "INFORMATIONAL" = "Informational" ∧
    map_severity "" = "Medium" := by
  refine ⟨?_, by decide⟩
  intro s hs
  simp only [List.mem_cons, List.not_mem_nil, or_false, not_or] at hs
  obtain ⟨h1, h2, h3, h4, h5, h6⟩ := hs
  have e1 : (pyUpper s == "CRITICAL") = false := beq_eq_false_iff_ne.mpr h1
  have e2 : (pyUpper s == "HIGH") = false := beq_eq_false_iff_ne.mpr h2
  have e3 : (pyUpper s == "MEDIUM") = false := beq_eq_false_iff_ne.mpr h3
  have e4 : (pyUpper s == "LOW") = false := beq_eq_false_iff_ne.mpr h4
  have e5 : (pyUpper s == "INFO") = false := beq_eq_false_iff_ne.mpr h5
  have e6 : (pyUpper s == "INFORMATIONAL") = false := beq_eq_false_iff_ne.mpr h6
  simp [map_severity, severity_mapping, List.lookup, e1, e2, e3, e4, e5, e6]

/-- C5 witness: an unrecognized severity string maps to `"Medium"`. -/
theorem map_severity_total_witness :
    pyUpper "bogus" ∉ (["CRITICAL", "HIGH", "MEDIUM", "LOW", "INFO",
      "INFORMATIONAL"] : List String) ∧
    map_severity "bogus" = "Medium" :=
  ⟨by decide, map_severity_total.1 "bogus" (by decide)⟩

/-- C6 counterexample: the finding-type filter is case-sensitive — a
finding whose `finding_id` matches the filter value case-insensitively
(but not exactly) is filtered out. -/
theorem filter_case_cex :
    pyLower "S3_BUCKET_PUBLIC_ACCESS" = pyLower "s3_bucket_public_access" ∧
    filter_findings [exUpperFinding] (some "s3_bucket_public_access")
      none none = [] := by
  decide

/-- C6 (amended): `filter_findings` keeps exactly the findings matching all
supplied filters, composed by logical AND; the finding-type and resource
filters are case-sensitive exact matches, the severity filter is
case-insensitive; an absent (or empty) filter imposes no restriction. -/
theorem filter_findings_spec (findings : List RFinding)
    (ft rs sv : Option String) :
    filter_findings findings ft rs sv =
      findings.filter (matchesFilters ft rs sv) := by
  unfold filter_findings matchesFilters
  rcases hft : optFalsy ft with _ | _ <;> rcases hrs : optFalsy rs with _ | _ <;>
    rcases hsv : optFalsy sv with _ | _ <;>
      simp [hft, hrs, hsv, List.filter_filter, Bool.and_assoc, Bool.and_comm,
        Bool.and_left_comm]

theorem consoleLoop_append (l : List String) :
    ∀ acc : List String,
      l.foldl (fun steps sentence =>
        let sentence := pyStrip sentence
        if sentence != "" && 10 < sentence.length then steps ++ [sentence]
        else steps) acc
      = acc ++ (l.map pyStrip).filter (fun s => s != "" && 10 < s.length) := by
  induction l with
  | nil => intro acc; simp
  | cons x xs ih =>
    intro acc
    simp only [List.foldl_cons, List.map_cons, List.filter_cons]
    by_cases h : (pyStrip x != "" && decide (10 < (pyStrip x).length)) = true
    · simp only [h, if_true, ih, List.append_assoc, List.singleton_append]
    · simp only [Bool.not_eq_true] at h
      simp only [h, if_false, ih, Bool.false_eq_true]

theorem consoleStepsLoop_eq (sentences : List String) :
    consoleStepsLoop sentences =
      ((sentences.take 5).map pyStrip).filter (fun s => s != "" && 10 < s.length) := by
  unfold consoleStepsLoop
  rw [consoleLoop_append]
  simp

theorem generate_console_steps_eq (summary : String) :
    generate_console_steps summary =
      if goodSteps summary = [] then [summary] else goodSteps summary := by
  simp only [generate_console_steps, goodSteps]
  rw [consoleStepsLoop_eq]
  rcases h : ((sentenceFragments summary).take 5).map pyStrip
      |>.filter (fun s => s != "" && 10 < s.length) with _ | ⟨a, rest⟩ <;>
    simp [h]

theorem generate_console_steps_le5 (summary : String) :
    (generate_console_steps summary).length ≤ 5 := by
  rw [generate_console_steps_eq]
  split
  · simp
  · calc (goodSteps summary).length
        ≤ (((sentenceFragments summary).take 5).map pyStrip).length :=
          List.length_filter_le _ _
      _ = ((sentenceFragments summary).take 5).length := List.length_map _ _
      _ ≤ 5 := List.length_take_le _ _

theorem prowlerCodeOptions_code_only (c : Option RemediationCode) :
    ∀ o ∈ prowlerCodeOptions c, isConsoleOption o = false := by
  intro o ho
  rcases o with ⟨t, l, cd, n⟩ | ⟨t, l, st, n⟩
  · rfl
  · exfalso
    rcases c with _ | code
    · simp [prowlerCodeOptions] at ho
    · simp only [prowlerCodeOptions] at ho
      split at ho <;> split at ho <;> split at ho <;> split at ho <;>
        simp at ho

/-- C9: when the recommendation summary is non-empty, the extracted options
list ends with a synthesized console option whose steps are the first five
sentence fragments of the summary (stripped, dropping fragments of at most
10 characters, falling back to the whole summary when none passes), never
more than 5 steps; when the summary is empty no console option is
appended. -/
theorem console_option_spec (info : Option RemediationInfo) :
    ((extract_prowler_remediation info).summary = "" →
      ∀ o ∈ (extract_prowler_remediation info).options, isConsoleOption o = false) ∧
    ((extract_prowler_remediation info).summary ≠ "" →
      ∃ pre, (∀ o ∈ pre, isConsoleOption o = false) ∧
        (extract_prowler_remediation info).options = pre ++
          [RemOption.consoleOption "console" "AWS Console"
            (generate_console_steps (extract_prowler_remediation info).summary)
            "Manual steps via AWS Management Console"] ∧
        generate_console_steps (extract_prowler_remediation info).summary =
          (if goodSteps (extract_prowler_remediation info).summary = []
            then [(extract_prowler_remediation info).summary]
            else goodSteps (extract_prowler_remediation info).summary) ∧
        (generate_console_steps (extract_prowler_remediation info).summary).length ≤ 5) := by
  rcases info with _ | ⟨rec, code⟩
  · refine ⟨fun _ o ho => ?_, fun h => absurd rfl h⟩
    simp [extract_prowler_remediation] at ho
  · rcases rec with _ | rec
    · have he : extract_prowler_remediation (some ⟨none, code⟩) =
          ⟨"", "", prowlerCodeOptions code⟩ := by
        simp [extract_prowler_remediation]
      rw [he]
      exact ⟨fun _ => prowlerCodeOptions_code_only code, fun h => absurd rfl h⟩
    · by_cases hs : rec.Text = ""
      · have he : extract_prowler_remediation (some ⟨some rec, code⟩) =
            ⟨rec.Text, rec.Url, prowlerCodeOptions code⟩ := by
          simp [extract_prowler_remediation, hs]
        rw [he]
        exact ⟨fun _ => prowlerCodeOptions_code_only code, fun h => absurd hs h⟩
      · have he : extract_prowler_remediation (some ⟨some rec, code⟩) =
            ⟨rec.Text, rec.Url, prowlerCodeOptions code ++
              [RemOption.consoleOption "console" "AWS Console"
                (generate_console_steps rec.Text)
                "Manual steps via AWS Management Console"]⟩ := by
          simp [extract_prowler_remediation, bne_iff_ne.mpr hs]
        rw [he]
        refine ⟨fun h => absurd h hs, fun _ => ⟨prowlerCodeOptions code,
          prowlerCodeOptions_code_only code, rfl,
          generate_console_steps_eq rec.Text,
          generate_console_steps_le5 rec.Text⟩⟩

/-- C9 witness: a concrete remediation block with a two-sentence summary
yields the console option characterization. -/
theorem console_option_spec_witness :
    (extract_prowler_remediation exRemInfo).summary ≠ "" ∧
    (∃ pre, (∀ o ∈ pre, isConsoleOption o = false) ∧
      (extract_prowler_remediation exRemInfo).options = pre ++
        [RemOption.consoleOption "console" "AWS Console"
          (generate_console_steps (extract_prowler_remediation exRemInfo).summary)
          "Manual steps via AWS Management Console"] ∧
      generate_console_steps (extract_prowler_remediation exRemInfo).summary =
        (if goodSteps (extract_prowler_remediation exRemInfo).summary = []
          then [(extract_prowler_remediation exRemInfo).summary]
          else goodSteps (extract_prowler_remediation exRemInfo).summary) ∧
      (generate_console_steps (extract_prowler_remediation exRemInfo).summary).length ≤ 5) :=
  ⟨by decide, (console_option_spec exRemInfo).2 (by decide)⟩

theorem bump_sum (m : List (String × Nat)) (k : String) :
    sumCounts (bumpCount m k) = sumCounts m + 1 := by
  induction m with
  | nil => simp [bumpCount, sumCounts]
  | cons p rest ih =>
    rcases p with ⟨k', v⟩
    by_cases h : (k' == k) = true
    · simp [bumpCount, h, sumCounts]
      omega
    · simp only [Bool.not_eq_true] at h
      simp only [bumpCount, h, Bool.false_eq_true, if_false]
      simp only [sumCounts, List.map_cons, List.sum_cons] at ih ⊢
      omega

theorem bump_fst_mem (m : List (String × Nat)) (k k' : String) (c : Nat)
    (h : (k, c) ∈ bumpCount m k') : k = k' ∨ ∃ c', (k, c') ∈ m := by
  induction m with
  | nil =>
    simp [bumpCount] at h
    exact Or.inl h.1
  | cons p rest ih =>
    rcases p with ⟨k0, v⟩
    by_cases h0 : (k0 == k') = true
    · simp only [bumpCount, h0, if_true] at h
      rcases List.mem_cons.mp h with he | hm
      · rcases Prod.mk.injEq .. ▸ he with ⟨rfl, -⟩
        exact Or.inl (eq_of_beq h0)
      · exact Or.inr ⟨c, List.mem_cons_of_mem _ hm⟩
    · simp only [Bool.not_eq_true] at h0
      simp only [bumpCount, h0, Bool.false_eq_true, if_false] at h
      rcases List.mem_cons.mp h with he | hm
      · exact Or.inr ⟨c, he ▸ List.mem_cons_self _ _⟩
      · rcases ih hm with h1 | ⟨c', h2⟩
        · exact Or.inl h1
        · exact Or.inr ⟨c', List.mem_cons_of_mem _ h2⟩

theorem summaryStep_by_account (acc : SummaryCounts) (f : NFinding) :
    (summaryStep acc f).by_account =
      if f.account_id != "" then bumpCount acc.by_account f.account_id
      else acc.by_account := by
  simp only [summaryStep]
  split <;> rfl

theorem foldl_by_account (fs : List NFinding) :
    ∀ acc : SummaryCounts,
      (fs.foldl summaryStep acc).by_account =
        fs.foldl (fun m f => if f.account_id != "" then bumpCount m f.account_id else m)
          acc.by_account := by
  induction fs with
  | nil => intro acc; rfl
  | cons f rest ih =>
    intro acc
    simp only [List.foldl_cons, ih, summaryStep_by_account]

theorem accfold_sum (fs : List NFinding) :
    ∀ m : List (String × Nat),
      sumCounts (fs.foldl
          (fun m f => if f.account_id != "" then bumpCount m f.account_id else m) m) =
        sumCounts m + (fs.filter (fun f => f.account_id != "")).length := by
  induction fs with
  | nil => intro m; simp
  | cons f rest ih =>
    intro m
    simp only [List.foldl_cons, List.filter_cons]
    by_cases h : (f.account_id != "") = true
    · simp only [h, if_true, ih, bump_sum, List.length_cons]
      omega
    · simp only [Bool.not_eq_true] at h
      simp only [h, Bool.false_eq_true, if_false, ih]

theorem accfold_mem (fs : List NFinding) :
    ∀ (m : List (String × Nat)) (k : String) (c : Nat),
      (k, c) ∈ fs.foldl
          (fun m f => if f.account_id != "" then bumpCount m f.account_id else m) m →
        (∃ c', (k, c') ∈ m) ∨ (k ∈ fs.map NFinding.account_id ∧ k ≠ "") := by
  induction fs with
  | nil => intro m k c h; exact Or.inl ⟨c, h⟩
  | cons f rest ih =>
    intro m k c h
    simp only [List.foldl_cons] at h
    by_cases hf : (f.account_id != "") = true
    · rw [if_pos hf] at h
      rcases ih _ k c h with ⟨c', hc'⟩ | ⟨hm, hk⟩
      · rcases bump_fst_mem m k f.account_id c' hc' with rfl | ⟨c'', hc''⟩
        · exact Or.inr ⟨List.mem_map_of_mem NFinding.account_id
            (List.mem_cons_self f rest), bne_iff_ne.mp hf⟩
        · exact Or.inl ⟨c'', hc''⟩
      · exact Or.inr ⟨List.map_cons _ _ _ ▸ List.mem_cons_of_mem _ hm, hk⟩
    · simp only [Bool.not_eq_true] at hf
      rw [if_neg (by simp [hf])] at h
      rcases ih _ k c h with hc | ⟨hm, hk⟩
      · exact Or.inl hc
      · exact Or.inr ⟨List.map_cons _ _ _ ▸ List.mem_cons_of_mem _ hm, hk⟩

theorem gen_by_account_mem (fs : List NFinding) (k : String) (c : Nat)
    (h : (k, c) ∈ (generate_summary fs).by_account) :
    k ≠ "" ∧ k ∈ fs.map NFinding.account_id := by
  unfold generate_summary at h
  by_cases he : fs.isEmpty
  · rw [if_pos he] at h
    simp at h
  · rw [if_neg he] at h
    simp only at h
    rw [foldl_by_account] at h
    rcases accfold_mem fs _ k c h with ⟨c', hc'⟩ | ⟨hm, hk⟩
    · simp at hc'
    · exact ⟨hk, hm⟩

/-- C10: `generate_summary` counts a finding in `by_account` (and lists its
account in `accounts`) only when its `account_id` is non-empty; every
ScoutSuite-normalized finding has an empty `account_id` and is never
counted there, so the `by_account` counts can sum to strictly less than
`total_findings`. -/
theorem by_account_nonempty_only :
    (∀ (fs : List NFinding) (k : String) (c : Nat),
      (k, c) ∈ (generate_summary fs).by_account →
      k ≠ "" ∧ k ∈ fs.map NFinding.account_id) ∧
    (∀ (fs : List NFinding) (k : String),
      k ∈ (generate_summary fs).accounts → k ≠ "") ∧
    (∀ fs : List NFinding,
      sumCounts (generate_summary fs).by_account =
        (fs.filter (fun f => f.account_id != "")).length) ∧
    (∀ (fid : String) (fd : ScoutFindingData) (svc : String) (iid : Option String),
      (normalize_scoutsuite_finding fid fd svc iid).account_id = "") ∧
    sumCounts (generate_summary [exScoutFinding]).by_account <
      (generate_summary [exScoutFinding]).total_findings := by
  refine ⟨gen_by_account_mem, ?_, ?_, fun _ _ _ _ => rfl, by decide⟩
  · intro fs k h
    by_cases he : fs.isEmpty
    · unfold generate_summary at h
      rw [if_pos he] at h
      simp at h
    · have hacc : (generate_summary fs).accounts =
          (generate_summary fs).by_account.map Prod.fst := by
        unfold generate_summary
        rw [if_neg he]
      rw [hacc] at h
      rcases List.mem_map.mp h with ⟨⟨k', c⟩, hp, rfl⟩
      exact (gen_by_account_mem fs k' c hp).1
  · intro fs
    by_cases he : fs.isEmpty
    · unfold generate_summary
      rw [if_pos he]
      rw [List.isEmpty_iff.mp he]
      simp [sumCounts]
    · unfold generate_summary
      rw [if_neg he]
      simp only
      rw [foldl_by_account, accfold_sum]
      simp [sumCounts]

/-- C10 witness: a mixed set with one Prowler and one ScoutSuite finding
counts the AWS account, which is non-empty and drawn from the findings. -/
theorem by_account_nonempty_only_witness :
    ("123456789012", 1) ∈
      (generate_summary [exAwsFinding, exScoutFinding]).by_account ∧
    "123456789012" ≠ "" ∧
    "123456789012" ∈ ([exAwsFinding, exScoutFinding].map NFinding.account_id) := by
  refine ⟨by decide, ?_, ?_⟩
  · exact (by_account_nonempty_only.1 [exAwsFinding, exScoutFinding]
      "123456789012" 1 (by decide)).1
  · exact (by_account_nonempty_only.1 [exAwsFinding, exScoutFinding]
      "123456789012" 1 (by decide)).2
